import Mathlib

/-!
Shallow embedding of the BookFinder component
(src/src/components/BookFinder.tsx) of storyseeker-hub.

The component holds five React state cells (searchQuery, searchType, books,
loading, hasSearched).  `searchBooks` is an async function with a single
suspension point (the fetch/parse).  We split it into a synchronous start
half and a completion half, and wrap both in a small event-step semantics
(`stepE`) so that overlapping searches can be expressed as interleaved
`submit` / `resolve` events.  Side effects (toasts, the outbound HTTP GET,
console.error) are returned as an explicit effect list.
-/

namespace BookFinder

/-- The three search modes of the `searchType` state cell
(`'title' | 'author' | 'subject'`, BookFinder.tsx line 30). -/
inductive SearchType
  | title
  | author
  | subject
deriving DecidableEq

/-- String rendering of a `SearchType`, as JS template interpolation of the
`searchType` string produces it. -/
def searchTypeStr : SearchType → String
  | SearchType.title => "title"
  | SearchType.author => "author"
  | SearchType.subject => "subject"

/-- The `Book` interface (BookFinder.tsx lines 10-21).  Optional fields
become `Option`; JS numbers that hold integers become `Int`. -/
structure Book where
  key : String
  title : String
  author_name : Option (List String) := none
  first_publish_year : Option Int := none
  isbn : Option (List String) := none
  cover_i : Option Int := none
  subject : Option (List String) := none
  publisher : Option (List String) := none
  language : Option (List String) := none
  edition_count : Option Int := none
deriving DecidableEq

/-- The `SearchResponse` interface (BookFinder.tsx lines 23-26). -/
structure SearchResponse where
  docs : List Book
  numFound : Int
deriving DecidableEq

/-- The component's React state cells (BookFinder.tsx lines 29-33). -/
structure ComponentState where
  searchQuery : String := ""
  searchType : SearchType := SearchType.title
  books : List Book := []
  loading : Bool := false
  hasSearched : Bool := false
deriving DecidableEq

/-- Observable side effects of the component: a toast notice (title,
description, whether `variant: "destructive"`), an outbound HTTP GET, and
a `console.error` log line. -/
inductive Effect
  | toast (title : String) (description : String) (destructive : Bool)
  | httpGet (url : String)
  | consoleError (msg : String)
deriving DecidableEq

/-- Outcome of the awaited fetch/parse step: a parsed OK response, a
response with `!response.ok`, or a transport/parse exception carrying its
message. -/
inductive Outcome
  | ok (resp : SearchResponse)
  | notOk
  | transportError (msg : String)
deriving DecidableEq

/-! ### JS string primitives -/

/-- Whitespace characters for JS `String.prototype.trim` (the ASCII ones
that can occur in a text input). -/
def isWsChar (c : Char) : Bool := c = ' ' || c = '\t' || c = '\n' || c = '\r'

/-- JS `searchQuery.trim()`: strip leading and trailing whitespace. -/
def jsTrim (s : String) : String :=
  String.mk (((s.data.dropWhile isWsChar).reverse.dropWhile isWsChar).reverse)

/-- The characters JS `encodeURIComponent` leaves unescaped:
`A-Z a-z 0-9 - _ . ! ~ * ' ( )`. -/
def isUnreservedURIChar (c : Char) : Bool :=
  (c ≥ 'A' && c ≤ 'Z') || (c ≥ 'a' && c ≤ 'z') || (c ≥ '0' && c ≤ '9') ||
  c = '-' || c = '_' || c = '.' || c = '!' || c = '~' || c = '*' ||
  c.toNat = 39 || c = '(' || c = ')'

/-- Uppercase hexadecimal digit for `n < 16`. -/
def hexDigit (n : Nat) : Char :=
  if n < 10 then Char.ofNat (48 + n) else Char.ofNat (55 + n)

/-- UTF-8 byte sequence of a character (as `Nat`s below 256). -/
def utf8Bytes (c : Char) : List Nat :=
  let n := c.toNat
  if n < 128 then [n]
  else if n < 2048 then [192 + n / 64, 128 + n % 64]
  else if n < 65536 then [224 + n / 4096, 128 + (n / 64) % 64, 128 + n % 64]
  else [240 + n / 262144, 128 + (n / 4096) % 64, 128 + (n / 64) % 64, 128 + n % 64]

/-- Percent-encoding of one byte, e.g. `%20`. -/
def percentByte (b : Nat) : String :=
  String.mk ['%', hexDigit (b / 16), hexDigit (b % 16)]

/-- JS `encodeURIComponent`: unreserved characters pass through, every
other character is percent-encoded per UTF-8 byte. -/
def encodeURIComponent (s : String) : String :=
  String.join (s.data.map (fun c =>
    if isUnreservedURIChar c then String.singleton c
    else String.join ((utf8Bytes c).map percentByte)))

/-! ### searchBooks, split at its await point -/

/-- The `searchParam` ternary (BookFinder.tsx lines 54-55). -/
def searchParamOf (t : SearchType) : String :=
  if t = SearchType.title then "title"
  else if t = SearchType.author then "author"
  else "subject"

/-- The fetched URL (BookFinder.tsx lines 57-59):
`https://openlibrary.org/search.json?{searchParam}={encodeURIComponent(searchQuery)}&limit=20`. -/
def requestUrl (t : SearchType) (q : String) : String :=
  "https://openlibrary.org/search.json?" ++ searchParamOf t ++ "=" ++
    encodeURIComponent q ++ "&limit=20"

/-- Synchronous prefix of `searchBooks` (BookFinder.tsx lines 40-59): the
empty-input guard, `setLoading(true)`, `setHasSearched(true)` and the
fetch.  Returns the new state, the emitted effects, and — when a request
was issued — the `searchType` value captured by the async closure for use
after the await. -/
def searchBooksStart (c : ComponentState) : ComponentState × List Effect × Option SearchType :=
  if jsTrim c.searchQuery = "" then
    (c,
     [Effect.toast "Please enter a search term"
        "Enter a book title, author, or subject to search." true],
     none)
  else
    ({ c with loading := true, hasSearched := true },
     [Effect.httpGet (requestUrl c.searchType c.searchQuery)],
     some c.searchType)

/-- Continuation of `searchBooks` after the awaited fetch/parse
(BookFinder.tsx lines 61-88), including the `finally` clause.
`captured` is the `searchType` the closure captured at invocation time. -/
def searchBooksComplete (c : ComponentState) (captured : SearchType) (out : Outcome) :
    ComponentState × List Effect :=
  match out with
  | Outcome.ok data =>
      if data.docs.length = 0 then
        ({ c with books := data.docs, loading := false },
         [Effect.toast "No books found"
            ("Try searching with different " ++ searchTypeStr captured ++ " terms.") false])
      else
        ({ c with books := data.docs, loading := false },
         [Effect.toast "Search successful!"
            ("Found " ++ toString data.numFound ++ " books matching your search.") false])
  | Outcome.notOk =>
      ({ c with loading := false },
       [Effect.consoleError ("Search error: " ++ "Error: Failed to fetch books"),
        Effect.toast "Search failed"
          "There was an error searching for books. Please try again." true])
  | Outcome.transportError msg =>
      ({ c with loading := false },
       [Effect.consoleError ("Search error: " ++ msg),
        Effect.toast "Search failed"
          "There was an error searching for books. Please try again." true])

/-! ### Event-step semantics for interleaved searches -/

/-- Whole-system state: the component's state cells plus the set of
in-flight fetches (each tagged with an id and the `searchType` its
closure captured) and a fresh-id counter. -/
structure SysState where
  comp : ComponentState
  pending : List (Nat × SearchType) := []
  nextId : Nat := 0
deriving DecidableEq

/-- User and network events: editing the input, picking a mode, invoking
`searchBooks` (submit button or Enter key), and an in-flight fetch
resolving with an outcome. -/
inductive Event
  | setQuery (q : String)
  | setMode (t : SearchType)
  | submit
  | resolve (id : Nat) (out : Outcome)
deriving DecidableEq

/-- One event step, returning the new system state and the emitted
effects.  Resolving an id that is not in flight is a no-op. -/
def stepE (s : SysState) : Event → SysState × List Effect
  | Event.setQuery q => ({ s with comp := { s.comp with searchQuery := q } }, [])
  | Event.setMode t => ({ s with comp := { s.comp with searchType := t } }, [])
  | Event.submit =>
      match searchBooksStart s.comp with
      | (c2, effs, none) => ({ s with comp := c2 }, effs)
      | (c2, effs, some cap) =>
          ({ comp := c2, pending := s.pending ++ [(s.nextId, cap)], nextId := s.nextId + 1 },
           effs)
  | Event.resolve id out =>
      match s.pending.find? (fun p => p.1 == id) with
      | none => (s, [])
      | some pr =>
          let r := searchBooksComplete s.comp pr.2 out
          ({ comp := r.1, pending := s.pending.filter (fun p => p.1 != id), nextId := s.nextId },
           r.2)

/-- State part of a step. -/
def step (s : SysState) (e : Event) : SysState := (stepE s e).1

/-- Run a list of events. -/
def runTrace (s : SysState) (evs : List Event) : SysState := evs.foldl step s

/-! ### Rendering -/

/-- The top-level conditional blocks of the JSX (BookFinder.tsx lines
163-299): loading skeleton grid, results grid, no-results block, welcome
block. -/
inductive Section
  | loadingGrid
  | resultsGrid (books : List Book)
  | noResults
  | welcome
deriving DecidableEq

/-- Which top-level blocks render, with the source's guards:
`loading`, `!loading && hasSearched && books.length > 0`,
`!loading && hasSearched && books.length === 0`, `!hasSearched`. -/
def shownSections (c : ComponentState) : List Section :=
  (if c.loading then [Section.loadingGrid] else []) ++
  (if !c.loading && c.hasSearched && c.books.length > 0
     then [Section.resultsGrid c.books] else []) ++
  (if !c.loading && c.hasSearched && c.books.length == 0
     then [Section.noResults] else []) ++
  (if !c.hasSearched then [Section.welcome] else [])

/-- Cover image sizes (`'S' | 'M' | 'L'`, BookFinder.tsx line 36). -/
inductive CoverSize
  | S
  | M
  | L
deriving DecidableEq

/-- Size tag string. -/
def sizeTag : CoverSize → String
  | CoverSize.S => "S"
  | CoverSize.M => "M"
  | CoverSize.L => "L"

/-- `getCoverUrl` (BookFinder.tsx lines 36-38):
`https://covers.openlibrary.org/b/id/{coverId}-{size}.jpg`. -/
def getCoverUrl (coverId : Int) (size : CoverSize) : String :=
  "https://covers.openlibrary.org/b/id/" ++ toString coverId ++ "-" ++ sizeTag size ++ ".jpg"

/-- What the cover area of a card shows. -/
inductive CoverView
  | image (url : String)
  | placeholder
deriving DecidableEq

/-- The cover conditional (BookFinder.tsx lines 186-201): the `<img>` is
rendered iff `book.cover_i` is truthy (a JS number is falsy exactly when
it is 0; an absent field is falsy), else the placeholder div shows. -/
def renderCover (b : Book) : CoverView :=
  match b.cover_i with
  | some n => if n != 0 then CoverView.image (getCoverUrl n CoverSize.M) else CoverView.placeholder
  | none => CoverView.placeholder

/-- The subject badges (BookFinder.tsx lines 223-235): rendered only when
`book.subject && book.subject.length > 0`; then `slice(0, 3)` badges,
plus a `+{length - 3}` badge when `length > 3`.  Returns the badge texts
and the optional remainder badge text. -/
def renderSubjects (b : Book) : List String × Option String :=
  match b.subject with
  | some subj =>
      if subj.length > 0 then
        (subj.take 3,
         if subj.length > 3 then some ("+" ++ toString (subj.length - 3)) else none)
      else ([], none)
  | none => ([], none)

end BookFinder

namespace BookFinder

/-! ## Claim C1 -/

/-- Claim C1: for every system state whose search input is empty or
whitespace-only (its JS-trim is empty), invoking a search emits exactly the
validation toast — no HTTP request — and leaves the entire system state
(including `loading` and `hasSearched`) unchanged. -/
theorem C1_empty_input_no_request (s : SysState)
    (h : jsTrim s.comp.searchQuery = "") :
    stepE s Event.submit =
      (s, [Effect.toast "Please enter a search term"
             "Enter a book title, author, or subject to search." true]) := by
  simp [stepE, searchBooksStart, h]

/-- Concrete instance of C1 at the whitespace-only input of the spec
scenario. -/
theorem C1_witness :
    stepE { comp := { searchQuery := "   " } } Event.submit =
      ({ comp := { searchQuery := "   " } },
       [Effect.toast "Please enter a search term"
          "Enter a book title, author, or subject to search." true]) :=
  C1_empty_input_no_request { comp := { searchQuery := "   " } } (by decide)

end BookFinder

namespace BookFinder

/-! ## Claim C3 -/

/-- System state with an untrimmed title query, for the C3 counterexample. -/
def sC3 : SysState := { comp := { searchQuery := " a", searchType := SearchType.title } }

/-- Claim C3 counterexample: with the entered term `" a"` (trimmed term
`"a"`), the single issued GET encodes the raw term — its URL carries
`%20a` and differs from the URL built from the trimmed term, so the claim
that the encoded term is the encoding of the *trimmed* term is false. -/
theorem C3_counterexample :
    (stepE sC3 Event.submit).2 =
      [Effect.httpGet "https://openlibrary.org/search.json?title=%20a&limit=20"] ∧
    "https://openlibrary.org/search.json?title=%20a&limit=20" ≠
      "https://openlibrary.org/search.json?title=" ++ encodeURIComponent (jsTrim " a") ++ "&limit=20" ∧
    jsTrim " a" = "a" := by
  refine ⟨by decide, by decide, by decide⟩

/-- Modelled from the spec: section 6's request shape
`{field}={urlencoded term}&limit=20` on the fixed endpoint, with `field`
the selected mode's catalog field name; here applied to the raw entered
term, per the counterexample. -/
def specSearchField : SearchType → String
  | SearchType.title => "title"
  | SearchType.author => "author"
  | SearchType.subject => "subject"

/-- Claim C3 (amended): for every state whose trimmed term is non-empty,
submitting emits exactly one effect — one HTTP GET — whose URL is the
fixed endpoint with `{field}={urlencoded raw term}&limit=20`, the field
matching the selected mode. -/
theorem C3_single_get_request (s : SysState)
    (h : jsTrim s.comp.searchQuery ≠ "") :
    (stepE s Event.submit).2 =
      [Effect.httpGet ("https://openlibrary.org/search.json?" ++
        specSearchField s.comp.searchType ++ "=" ++
        encodeURIComponent s.comp.searchQuery ++ "&limit=20")] := by
  have hf : searchParamOf s.comp.searchType = specSearchField s.comp.searchType := by
    cases s.comp.searchType <;> rfl
  simp [stepE, searchBooksStart, h, requestUrl, hf]

/-- Concrete instance of C3 (amended): the spec's `author`/`Tolkien`
scenario issues the single GET with `author=Tolkien&limit=20`. -/
theorem C3_witness :
    (stepE { comp := { searchQuery := "Tolkien", searchType := SearchType.author } } Event.submit).2 =
      [Effect.httpGet ("https://openlibrary.org/search.json?" ++
        specSearchField SearchType.author ++ "=" ++
        encodeURIComponent "Tolkien" ++ "&limit=20")] :=
  C3_single_get_request { comp := { searchQuery := "Tolkien", searchType := SearchType.author } }
    (by decide)

/-! ## Claim C8 -/

/-- A record whose `cover_i` field is present and equal to 0. -/
def bookZeroC8 : Book := { key := "/works/OL0W", title := "Zero Cover", cover_i := some 0 }

/-- Claim C8 counterexample: a record whose coverId is present (the field
is not absent) but equal to 0 renders the placeholder and no image URL,
so "coverId present implies the image URL is derived" is false as stated. -/
theorem C8_counterexample :
    bookZeroC8.cover_i = some 0 ∧ bookZeroC8.cover_i ≠ none ∧
    renderCover bookZeroC8 = CoverView.placeholder := by
  refine ⟨rfl, by decide, rfl⟩

/-- Claim C8 (amended): if coverId is present and nonzero, the cover image
URL is the fixed template `{host}/b/id/{coverId}-{sizeTag}.jpg` at the
renderer's size tag M (one of S, M, L); if coverId is absent or zero, the
renderer shows the placeholder and constructs no image URL. -/
theorem C8_cover_rendering (b : Book) :
    (∀ n : Int, b.cover_i = some n → n ≠ 0 →
        renderCover b =
          CoverView.image ("https://covers.openlibrary.org/b/id/" ++ toString n ++ "-M.jpg")) ∧
    (b.cover_i = none → renderCover b = CoverView.placeholder) ∧
    (b.cover_i = some 0 → renderCover b = CoverView.placeholder) := by
  refine ⟨?_, ?_, ?_⟩
  · intro n hn hnz
    have hm : ("-" ++ ("M" ++ ".jpg") : String) = "-M.jpg" := by decide
    simp [renderCover, hn, getCoverUrl, sizeTag, hnz, String.append_assoc, hm]
  · intro hn; simp [renderCover, hn]
  · intro hn; simp [renderCover, hn]

/-- Records for the C8 witness: one with a nonzero cover id, one with no
cover id. -/
def bookCoverC8 : Book := { key := "/works/OL1W", title := "Covered", cover_i := some 12345 }

/-- Concrete instance of C8 (amended) at a present nonzero coverId. -/
theorem C8_witness :
    renderCover bookCoverC8 =
      CoverView.image ("https://covers.openlibrary.org/b/id/" ++ toString (12345 : Int) ++ "-M.jpg") :=
  (C8_cover_rendering bookCoverC8).1 12345 rfl (by decide)

/-! ## Claim C9 -/

/-- Claim C9: for a record whose subject list has length k, exactly
min(k, 3) subject labels render (the first three), and the remainder
label is present iff k > 3, in which case it reads `+` followed by k − 3. -/
theorem C9_subject_labels (b : Book) (subj : List String)
    (h : b.subject = some subj) :
    (renderSubjects b).1.length = min subj.length 3 ∧
    (renderSubjects b).1 = subj.take 3 ∧
    (renderSubjects b).2 =
      (if subj.length > 3 then some ("+" ++ toString (subj.length - 3)) else none) := by
  refine ⟨?_, ?_, ?_⟩ <;> simp only [renderSubjects, h]
  · split
    · simp [List.length_take, Nat.min_comm]
    · have : subj = [] := by
        cases subj with
        | nil => rfl
        | cons a l => simp_all
      simp [this]
  · split
    · rfl
    · have : subj = [] := by
        cases subj with
        | nil => rfl
        | cons a l => simp_all
      simp [this]
  · split
    · rfl
    · have : subj = [] := by
        cases subj with
        | nil => rfl
        | cons a l => simp_all
      simp [this]

/-- A record with five subjects. -/
def bookFiveSubjects : Book :=
  { key := "/works/OL5W", title := "Five",
    subject := some ["s1", "s2", "s3", "s4", "s5"] }

/-- Concrete instance of C9: with five subjects, three labels render plus
a `+2` remainder label. -/
theorem C9_witness :
    (renderSubjects bookFiveSubjects).1.length = min (["s1", "s2", "s3", "s4", "s5"] : List String).length 3 ∧
    (renderSubjects bookFiveSubjects).1 = (["s1", "s2", "s3", "s4", "s5"] : List String).take 3 ∧
    (renderSubjects bookFiveSubjects).2 =
      (if (["s1", "s2", "s3", "s4", "s5"] : List String).length > 3
        then some ("+" ++ toString ((["s1", "s2", "s3", "s4", "s5"] : List String).length - 3)) else none) :=
  C9_subject_labels bookFiveSubjects ["s1", "s2", "s3", "s4", "s5"] rfl

/-! ## Claim C10 -/

/-- Claim C10: a record whose coverId is present but 0 is treated as
having no cover — the placeholder renders and no image URL exists,
because presence is tested by JS truthiness of the number. -/
theorem C10_zero_cover_placeholder (b : Book) (h : b.cover_i = some 0) :
    renderCover b = CoverView.placeholder ∧ ∀ u, renderCover b ≠ CoverView.image u := by
  constructor
  · simp [renderCover, h]
  · intro u
    simp [renderCover, h]

/-- A record with coverId 0, for the C10 witness. -/
def bookZeroC10 : Book := { key := "/works/OL2W", title := "Zero", cover_i := some 0 }

/-- Concrete instance of C10. -/
theorem C10_witness :
    renderCover bookZeroC10 = CoverView.placeholder ∧
    ∀ u, renderCover bookZeroC10 ≠ CoverView.image u :=
  C10_zero_cover_placeholder bookZeroC10 rfl

end BookFinder

namespace BookFinder

/-! ## Step-semantics helper lemmas (shared) -/

/-- Submitting never changes the stored `books` cell. -/
lemma step_submit_books (s : SysState) :
    (step s Event.submit).comp.books = s.comp.books := by
  by_cases hq : jsTrim s.comp.searchQuery = "" <;>
    simp [step, stepE, searchBooksStart, hq]

/-- An applied successful resolution stores exactly that response's docs. -/
lemma step_resolve_ok_books (s : SysState) (id : Nat) (resp : SearchResponse)
    (h : (s.pending.find? (fun p => p.1 == id)).isSome = true) :
    (step s (Event.resolve id (Outcome.ok resp))).comp.books = resp.docs := by
  cases hmatch : s.pending.find? (fun p => p.1 == id) with
  | none => rw [hmatch] at h; simp at h
  | some pr =>
      simp only [step, stepE, hmatch, searchBooksComplete]
      split <;> rfl

/-- A resolution that is not a successful response never changes `books`. -/
lemma step_resolve_fail_books (s : SysState) (id : Nat) (out : Outcome)
    (hout : ∀ resp, out ≠ Outcome.ok resp) :
    (step s (Event.resolve id out)).comp.books = s.comp.books := by
  cases hmatch : s.pending.find? (fun p => p.1 == id) with
  | none => simp [step, stepE, hmatch]
  | some pr =>
      cases out with
      | ok resp => exact absurd rfl (hout resp)
      | notOk => simp [step, stepE, hmatch, searchBooksComplete]
      | transportError msg => simp [step, stepE, hmatch, searchBooksComplete]

/-! ## Claim C2 -/

/-- Books and responses for the C2 stale-overwrite counterexample. -/
def bookAlpha : Book := { key := "/works/OLA", title := "Alpha" }

/-- Second book for the C2 counterexample. -/
def bookBeta : Book := { key := "/works/OLB", title := "Beta" }

/-- Response of the older (first-started) search. -/
def respAlpha : SearchResponse := { docs := [bookAlpha], numFound := 1 }

/-- Response of the newer (second-started) search. -/
def respBeta : SearchResponse := { docs := [bookBeta], numFound := 1 }

/-- Initial system state: fresh component, nothing in flight. -/
def sysInit : SysState := { comp := {} }

/-- Interleaving in which the newer search (id 1) resolves first and the
older search (id 0) resolves after it. -/
def staleTrace : List Event :=
  [Event.setQuery "alpha", Event.submit,
   Event.setQuery "beta", Event.submit,
   Event.resolve 1 (Outcome.ok respBeta),
   Event.resolve 0 (Outcome.ok respAlpha)]

/-- Claim C2 counterexample: after the newer search's state update has
been applied (books = Beta's docs), the older search's response still
overwrites it (final books = Alpha's docs), so the claimed staleness
guard does not exist in the code. -/
theorem C2_counterexample :
    (runTrace sysInit (staleTrace.take 5)).comp.books = [bookBeta] ∧
    (runTrace sysInit staleTrace).comp.books = [bookAlpha] ∧
    bookAlpha ≠ bookBeta := by
  refine ⟨by decide, by decide, by decide⟩

/-- Claim C2 (amended): every applied resolution overwrites the displayed
record set with its own docs, regardless of which search was started
first — the displayed set is that of the most recently *completed* search
(pure last-writer-by-completion-order), with no staleness guard, so an
older search's response completing after a newer one's does overwrite it. -/
theorem C2_last_completion_wins (s : SysState) (id : Nat) (resp : SearchResponse)
    (h : (s.pending.find? (fun p => p.1 == id)).isSome = true) :
    (step s (Event.resolve id (Outcome.ok resp))).comp.books = resp.docs :=
  step_resolve_ok_books s id resp h

/-- System state with one in-flight search, for the C2 witness. -/
def sC2 : SysState := { comp := { hasSearched := true, loading := true },
                        pending := [(0, SearchType.title)], nextId := 1 }

/-- Concrete instance of C2 (amended). -/
theorem C2_witness :
    (step sC2 (Event.resolve 0 (Outcome.ok respAlpha))).comp.books = respAlpha.docs :=
  C2_last_completion_wins sC2 0 respAlpha (by decide)

/-! ## Claim C4 -/

/-- Claim C4: an applied successful response with a non-empty record list
stores the full returned record set (replacing any prior one), clears the
loading flag, and emits exactly the success toast citing the
server-reported `numFound`; the results grid then shows exactly those
records. -/
theorem C4_success_stores_and_reports (s : SysState) (id : Nat) (resp : SearchResponse)
    (hp : (s.pending.find? (fun p => p.1 == id)).isSome = true)
    (hne : resp.docs ≠ []) :
    (step s (Event.resolve id (Outcome.ok resp))).comp.books = resp.docs ∧
    (step s (Event.resolve id (Outcome.ok resp))).comp.loading = false ∧
    (stepE s (Event.resolve id (Outcome.ok resp))).2 =
      [Effect.toast "Search successful!"
        ("Found " ++ toString resp.numFound ++ " books matching your search.") false] ∧
    (s.comp.hasSearched = true →
      shownSections (step s (Event.resolve id (Outcome.ok resp))).comp =
        [Section.resultsGrid resp.docs]) := by
  have hlen : ¬ resp.docs.length = 0 := by simpa using hne
  have hpos : 0 < resp.docs.length := Nat.pos_of_ne_zero hlen
  cases hmatch : s.pending.find? (fun p => p.1 == id) with
  | none => rw [hmatch] at hp; simp at hp
  | some pr =>
      refine ⟨?_, ?_, ?_, ?_⟩
      · simp [step, stepE, hmatch, searchBooksComplete, hlen]
      · simp [step, stepE, hmatch, searchBooksComplete, hlen]
      · simp [step, stepE, hmatch, searchBooksComplete, hlen]
      · intro hs
        simp [step, stepE, hmatch, searchBooksComplete, hlen, shownSections, hs, hpos]

/-- Record and response for the C4 witness: one returned record but a
server-reported total of 42, so the notice cites 42, not 1. -/
def bookC4 : Book := { key := "/works/OL4W", title := "Forty Two" }

/-- Response for the C4 witness. -/
def respC4 : SearchResponse := { docs := [bookC4], numFound := 42 }

/-- System state for the C4 witness. -/
def sC4 : SysState := { comp := { hasSearched := true, loading := true },
                        pending := [(0, SearchType.title)], nextId := 1 }

/-- Concrete instance of C4: one displayed record, notice cites 42. -/
theorem C4_witness :
    (step sC4 (Event.resolve 0 (Outcome.ok respC4))).comp.books = respC4.docs ∧
    (step sC4 (Event.resolve 0 (Outcome.ok respC4))).comp.loading = false ∧
    (stepE sC4 (Event.resolve 0 (Outcome.ok respC4))).2 =
      [Effect.toast "Search successful!"
        ("Found " ++ toString respC4.numFound ++ " books matching your search.") false] ∧
    (sC4.comp.hasSearched = true →
      shownSections (step sC4 (Event.resolve 0 (Outcome.ok respC4))).comp =
        [Section.resultsGrid respC4.docs]) :=
  C4_success_stores_and_reports sC4 0 respC4 (by decide) (by decide)

/-! ## Claim C5 -/

/-- Claim C5: an applied successful response with zero records leads to
the no-results block (not an error block), an empty stored record set,
and exactly one informational (non-destructive) toast suggesting
different terms for the captured search mode. -/
theorem C5_zero_results_not_error (s : SysState) (id : Nat) (cap : SearchType)
    (resp : SearchResponse)
    (hp : s.pending.find? (fun p => p.1 == id) = some (id, cap))
    (hd : resp.docs = [])
    (hs : s.comp.hasSearched = true) :
    shownSections (step s (Event.resolve id (Outcome.ok resp))).comp = [Section.noResults] ∧
    (step s (Event.resolve id (Outcome.ok resp))).comp.books = [] ∧
    (stepE s (Event.resolve id (Outcome.ok resp))).2 =
      [Effect.toast "No books found"
        ("Try searching with different " ++ searchTypeStr cap ++ " terms.") false] := by
  refine ⟨?_, ?_, ?_⟩ <;>
    simp [step, stepE, hp, searchBooksComplete, hd, shownSections, hs]

/-- Empty response for the C5 witness. -/
def respC5 : SearchResponse := { docs := [], numFound := 0 }

/-- System state for the C5 witness, with an author-mode search in flight. -/
def sC5 : SysState := { comp := { hasSearched := true, loading := true,
                                  searchType := SearchType.author },
                        pending := [(0, SearchType.author)], nextId := 1 }

/-- Concrete instance of C5. -/
theorem C5_witness :
    shownSections (step sC5 (Event.resolve 0 (Outcome.ok respC5))).comp = [Section.noResults] ∧
    (step sC5 (Event.resolve 0 (Outcome.ok respC5))).comp.books = [] ∧
    (stepE sC5 (Event.resolve 0 (Outcome.ok respC5))).2 =
      [Effect.toast "No books found"
        ("Try searching with different " ++ searchTypeStr SearchType.author ++ " terms.") false] :=
  C5_zero_results_not_error sC5 0 SearchType.author respC5 (by decide) rfl rfl

/-! ## Claim C6 -/

/-- Claim C6: a transport error or a not-OK response leaves the stored
records unchanged, clears the loading flag, and emits exactly a log line
carrying the error detail plus the fixed generic destructive toast (whose
text is a constant, independent of the detail); no HTTP GET — hence no
retry — is emitted. -/
theorem C6_failure_generic_notice (s : SysState) (id : Nat) (msg : String)
    (hp : (s.pending.find? (fun p => p.1 == id)).isSome = true) :
    ((step s (Event.resolve id (Outcome.transportError msg))).comp.books = s.comp.books ∧
     (step s (Event.resolve id (Outcome.transportError msg))).comp.loading = false ∧
     (stepE s (Event.resolve id (Outcome.transportError msg))).2 =
       [Effect.consoleError ("Search error: " ++ msg),
        Effect.toast "Search failed"
          "There was an error searching for books. Please try again." true]) ∧
    ((step s (Event.resolve id Outcome.notOk)).comp.books = s.comp.books ∧
     (step s (Event.resolve id Outcome.notOk)).comp.loading = false ∧
     (stepE s (Event.resolve id Outcome.notOk)).2 =
       [Effect.consoleError ("Search error: " ++ "Error: Failed to fetch books"),
        Effect.toast "Search failed"
          "There was an error searching for books. Please try again." true]) ∧
    (∀ u, ¬ Effect.httpGet u ∈ (stepE s (Event.resolve id (Outcome.transportError msg))).2) := by
  cases hmatch : s.pending.find? (fun p => p.1 == id) with
  | none => rw [hmatch] at hp; simp at hp
  | some pr =>
      refine ⟨⟨?_, ?_, ?_⟩, ⟨?_, ?_, ?_⟩, ?_⟩ <;>
        simp [step, stepE, hmatch, searchBooksComplete]

/-- System state for the C6 witness. -/
def sC6 : SysState := { comp := { hasSearched := true, loading := true,
                                  books := [{ key := "/works/OL6W", title := "Kept" }] },
                        pending := [(0, SearchType.title)], nextId := 1 }

/-- Concrete instance of C6 at the detail message "net down". -/
theorem C6_witness :
    ((step sC6 (Event.resolve 0 (Outcome.transportError "net down"))).comp.books = sC6.comp.books ∧
     (step sC6 (Event.resolve 0 (Outcome.transportError "net down"))).comp.loading = false ∧
     (stepE sC6 (Event.resolve 0 (Outcome.transportError "net down"))).2 =
       [Effect.consoleError ("Search error: " ++ "net down"),
        Effect.toast "Search failed"
          "There was an error searching for books. Please try again." true]) ∧
    ((step sC6 (Event.resolve 0 Outcome.notOk)).comp.books = sC6.comp.books ∧
     (step sC6 (Event.resolve 0 Outcome.notOk)).comp.loading = false ∧
     (stepE sC6 (Event.resolve 0 Outcome.notOk)).2 =
       [Effect.consoleError ("Search error: " ++ "Error: Failed to fetch books"),
        Effect.toast "Search failed"
          "There was an error searching for books. Please try again." true]) ∧
    (∀ u, ¬ Effect.httpGet u ∈ (stepE sC6 (Event.resolve 0 (Outcome.transportError "net down"))).2) :=
  C6_failure_generic_notice sC6 0 "net down" (by decide)

/-! ## Claim C7 -/

/-- Claim C7: the stored record set changes only when a search completes
successfully — submitting (entering the loading state) keeps the prior
records, failed resolutions keep them, and whenever any event changes the
stored records it is a successful resolution whose own docs become the
stored set, so the displayed records are those of the most recently
completed successful search. -/
theorem C7_results_change_only_on_success (s : SysState) :
    (step s Event.submit).comp.books = s.comp.books ∧
    (∀ id msg, (step s (Event.resolve id (Outcome.transportError msg))).comp.books
        = s.comp.books) ∧
    (∀ id, (step s (Event.resolve id Outcome.notOk)).comp.books = s.comp.books) ∧
    (∀ e, (step s e).comp.books ≠ s.comp.books →
       ∃ id resp, e = Event.resolve id (Outcome.ok resp) ∧
         (step s e).comp.books = resp.docs) := by
  refine ⟨step_submit_books s, ?_, ?_, ?_⟩
  · intro id msg
    exact step_resolve_fail_books s id (Outcome.transportError msg) (fun resp => by simp)
  · intro id
    exact step_resolve_fail_books s id Outcome.notOk (fun resp => by simp)
  · intro e hne
    cases e with
    | setQuery q => exact absurd rfl hne
    | setMode t => exact absurd rfl hne
    | submit => exact absurd (step_submit_books s) hne
    | resolve id out =>
        cases out with
        | ok resp =>
            refine ⟨id, resp, rfl, ?_⟩
            cases hmatch : s.pending.find? (fun p => p.1 == id) with
            | none =>
                exact absurd (by simp [step, stepE, hmatch]) hne
            | some pr =>
                exact step_resolve_ok_books s id resp (by simp [hmatch])
        | notOk =>
            exact absurd (step_resolve_fail_books s id Outcome.notOk (fun resp => by simp)) hne
        | transportError msg =>
            exact absurd (step_resolve_fail_books s id (Outcome.transportError msg)
              (fun resp => by simp)) hne

/-- Book for the C7 witness. -/
def bookC7 : Book := { key := "/works/OL7W", title := "Seventh" }

/-- Response for the C7 witness. -/
def respC7 : SearchResponse := { docs := [bookC7], numFound := 1 }

/-- System state for the C7 witness. -/
def sC7 : SysState := { comp := { hasSearched := true, loading := true },
                        pending := [(0, SearchType.title)], nextId := 1 }

/-- Concrete instance of C7: the one event that changes the records is a
successful resolution storing its own docs. -/
theorem C7_witness :
    ∃ id resp, Event.resolve 0 (Outcome.ok respC7) = Event.resolve id (Outcome.ok resp) ∧
      (step sC7 (Event.resolve 0 (Outcome.ok respC7))).comp.books = resp.docs :=
  (C7_results_change_only_on_success sC7).2.2.2 (Event.resolve 0 (Outcome.ok respC7))
    (by decide)

end BookFinder
